import Mathlib

/-!
Shallow embedding of `groupcheck` (src/groupcheck.c), a minimal polkit
replacement performing group-based authorization, together with proofs
settling the specification claims.

The OS and the message bus are external collaborators; they are modelled
as oracle functions gathered in `Env` (credentials per pid, credentials
per bus name, the first line of /proc/PID/stat, and the group database
queried by `getgrnam`).  Everything else is translated line by line from
the C source.
-/

namespace Groupcheck

/-- Model of `struct subject` (groupcheck.c:42-69): tagged union with one variant
per subject kind.  Fields are zero / empty at initialization
(`struct subject subject = { 0 }` in `method_check_authorization`). -/
inductive Subject where
  | unixProcess (pid : Nat) (startTime : Nat)
  | unixSession (sessionId : String)
  | systemBusName (name : String)
  deriving DecidableEq, Repr

/-- One parsed policy line, `struct line_data` (groupcheck.c:33-38):
an action id and its list of group names (at most `MAX_GROUPS = 10`). -/
structure Rule where
  id : String
  groups : List String
  deriving DecidableEq, Repr

/-- The credential fields `check_allowed` reads from an `sd_bus_creds`
object: real uid, effective uid, primary gid, supplementary gids
(groupcheck.c:185-207).  A credential object any of whose getters fails
is modelled as `none` at the oracle; every getter failure in the C code
leads to `goto end`, i.e. denial. -/
structure Creds where
  uid : Nat
  euid : Nat
  gid : Nat
  supplementaryGids : List Nat
  deriving DecidableEq, Repr

/-- The external collaborators (OS and bus), specified at their interface
boundary:
* `credsFromPid` — `sd_bus_creds_new_from_pid` plus its getters;
* `nameCreds` — `sd_bus_get_name_creds` plus its getters;
* `statContent` — the first line of `/proc/PID/stat` as read by `fgets`
  in `verify_start_time` (`none` when `fopen`/`fgets` fails);
* `getgrnam` — group-name to gid lookup (`none` when no such group). -/
structure Env where
  credsFromPid : Nat → Option Creds
  nameCreds : String → Option Creds
  statContent : Nat → Option (List Char)
  getgrnam : String → Option Nat

/-! ### verify_start_time (groupcheck.c:74-125)

The C function reads the first line of `/proc/PID/stat`, skips to the
22nd field and compares it with the claimed start time.  It is
translated faithfully, including its use of `strchr` and `strtoul`:
`strtoul(p, &endp, 10)` always stores a non-null pointer in `endp`, and
the function then rejects whenever `endp != NULL`. -/

/-- C `strchr`: the suffix of the string starting at the first occurrence
of `c`, or `none` (NULL) when `c` does not occur. -/
def strchr (cs : List Char) (c : Char) : Option (List Char) :=
  match cs with
  | [] => none
  | x :: rest => if x = c then some (x :: rest) else strchr rest c

/-- Digit-consuming loop of C `strtoul` (base 10): accumulated value and
the rest of the string (where `strtoul` leaves `*endptr`). -/
def strtoulDigits : List Char → Nat → Nat × List Char
  | [], acc => (acc, [])
  | c :: rest, acc =>
    if c.isDigit then strtoulDigits rest (acc * 10 + (c.toNat - 48))
    else (acc, c :: rest)

/-- C `strtoul(p, &endp, 10)`: skips leading spaces, then consumes
digits; returns the value and the position stored into `*endp`. -/
def cstrtoul (cs : List Char) : Nat × List Char :=
  strtoulDigits (cs.dropWhile (fun c => c = ' ')) 0

/-- The field-skipping loop of `verify_start_time` (groupcheck.c:110-114):
`n` iterations of `p = strchr(p, ' ')`.  A NULL result of `strchr`
(dereferenced by the C code) is modelled as failure. -/
def skipFields : List Char → Nat → Option (List Char)
  | p, 0 => some p
  | p, n + 1 =>
    match strchr p ' ' with
    | none => none
    | some q => skipFields q n

/-- Translation of `verify_start_time` (groupcheck.c:74-125) on the stat-line oracle
value: `true` stands for return 0 (match), `false` for a negative
return.  The final steps mirror the C code exactly:
`start_time = strtoul(p, &endp, 10); if (endp != NULL) return -EINVAL;`
— `endp` is always set by `strtoul`, so the comparison with the claimed
start time is never reached. -/
def verify_start_time (stat : Option (List Char)) (claimed : Nat) : Bool :=
  match stat with
  | none => false
  | some buf =>
    match strchr buf ')' with
    | none => false
    | some p0 =>
      match skipFields p0 20 with
      | none => false
      | some p =>
        let res := cstrtoul p
        let endp : Option (List Char) := some res.2
        match endp with
        | some _ => false
        | none => decide (res.1 = claimed)

/-! ### check_allowed (groupcheck.c:127-275) -/

/-- The policy lookup loop of `check_allowed` (groupcheck.c:144-156):
linear scan stopping at the first rule whose id equals the action id. -/
def findRule : List Rule → String → Option (List String)
  | [], _ => none
  | r :: rest, action =>
    if r.id = action then some r.groups else findRule rest action

/-- The group-matching loops of `check_allowed` (groupcheck.c:242-270):
for each configured group name, resolve it with `getgrnam` (skipping
names with no group entry); for each supplementary gid, skip it when it
equals the primary gid, otherwise compare with the resolved gid. -/
def matchGroups (db : String → Option Nat) (groups : List String)
    (primaryGid : Nat) (gids : List Nat) : Bool :=
  groups.any fun name =>
    match db name with
    | none => false
    | some g => gids.any fun x => !(x = primaryGid : Bool) && (x = g : Bool)

/-- Translation of `check_allowed` (groupcheck.c:127-275).  Looks up the action id in
the policy (first match wins); for a unix-process subject fetches
credentials by pid, verifies the start time and requires
`euid = ruid`; for a system-bus-name subject fetches credentials by bus
name and requires `euid = ruid`; other subject kinds leave `gids` NULL.
Every failure path is `goto end`, i.e. `false`. -/
def check_allowed (env : Env) (data : List Rule) (subject : Subject)
    (action : String) : Bool :=
  match findRule data action with
  | none => false
  | some groups =>
    match subject with
    | .unixProcess pid st =>
      match env.credsFromPid pid with
      | none => false
      | some c =>
        if verify_start_time (env.statContent pid) st then
          if c.euid ≠ c.uid then false
          else matchGroups env.getgrnam groups c.gid c.supplementaryGids
        else false
    | .systemBusName nm =>
      match env.nameCreds nm with
      | none => false
      | some c =>
        if c.euid ≠ c.uid then false
        else matchGroups env.getgrnam groups c.gid c.supplementaryGids
    | .unixSession _ => false

/-- The credentials `check_allowed` fetches for a subject: by pid for a
unix-process subject (groupcheck.c:177), by bus name for a
system-bus-name subject (groupcheck.c:212); none for other kinds. -/
def fetchedCreds (env : Env) (subject : Subject) : Option Creds :=
  match subject with
  | .unixProcess pid _ => env.credsFromPid pid
  | .systemBusName nm => env.nameCreds nm
  | .unixSession _ => none

/-! ### parse_subject (groupcheck.c:277-413)

The polkit subject on the wire is a struct `(sa{sv})`: a kind string and
an array of dict entries mapping a string key to a variant.  The variant
payloads `parse_subject` cares about are `u` (uint32), `t` (uint64) and
`s` (string); any other signature is `other`.  The relevant sd-bus
reading contract, modelled here:
* `sd_bus_message_read` with a type letter different from the variant
  content fails (negative return);
* `sd_bus_message_exit_container` on a dict entry whose variant value
  was never read returns `-EBUSY` (the container is not fully read), so
  an entry whose key the code does not handle makes the parse fail;
* `sd_bus_message_read` returns a non-negative value on success, so the
  `return r` in the too-long session-id branch (groupcheck.c:360-361)
  is an early SUCCESS return. -/

/-- A variant value in the subject details array. -/
inductive Variant where
  | u32 (v : Nat)
  | u64 (v : Nat)
  | str (s : String)
  | other
  deriving DecidableEq, Repr

/-- The wire form of a polkit subject: struct `(sa{sv})`. -/
structure SubjectWire where
  kind : String
  details : List (String × Variant)
  deriving DecidableEq, Repr

/-- The detail-entry loop of `parse_subject` (groupcheck.c:308-400),
threading the partially filled `struct subject`.  Dispatch is by the
already-fixed subject kind and the entry key:
* unix-process: `pid` reads `u`, `start-time` reads `t`;
* unix-session: `session-id` reads `s`; a value of 256 bytes or more
  triggers `return r` with the non-negative read result — an early
  success that leaves the field unset (groupcheck.c:360-363);
* system-bus-name: `name` reads `s`; a value of 256 bytes or more
  fails with `-EINVAL` (groupcheck.c:382-383);
* any other key leaves the variant unread, so exiting the dict entry
  container fails with `-EBUSY`. -/
def parseDetails : Subject → List (String × Variant) → Option Subject
  | subj, [] => some subj
  | subj, (key, v) :: rest =>
    match subj with
    | .unixProcess pid st =>
      if key = "pid" then
        match v with
        | .u32 n => parseDetails (.unixProcess n st) rest
        | _ => none
      else if key = "start-time" then
        match v with
        | .u64 n => parseDetails (.unixProcess pid n) rest
        | _ => none
      else none
    | .unixSession sid =>
      if key = "session-id" then
        match v with
        | .str s =>
          if 256 ≤ s.utf8ByteSize then some (.unixSession sid)
          else parseDetails (.unixSession s) rest
        | _ => none
      else none
    | .systemBusName _nm =>
      if key = "name" then
        match v with
        | .str s =>
          if 256 ≤ s.utf8ByteSize then none
          else parseDetails (.systemBusName s) rest
        | _ => none
      else none

/-- Translation of `parse_subject` (groupcheck.c:277-413): reads the kind string,
rejecting kinds other than `unix-process`, `unix-session` and
`system-bus-name` with `-EINVAL`, then processes the detail entries
starting from the zero-initialized subject. -/
def parse_subject (w : SubjectWire) : Option Subject :=
  if w.kind = "unix-process" then parseDetails (.unixProcess 0 0) w.details
  else if w.kind = "unix-session" then parseDetails (.unixSession "") w.details
  else if w.kind = "system-bus-name" then
    parseDetails (.systemBusName "") w.details
  else none

/-! ### Policy file parsing (groupcheck.c:662-787)

A policy line arrives in `line_data.buf` exactly as `fgets` produced it
(trailing newline included, NUL-terminated); it is modelled as the
`String` of its characters before the NUL. -/

/-- The `=` scan of `parse_line` (groupcheck.c:675-693): splits the line
at the first `=`, failing when there is none before the NUL. -/
def splitAtEq : List Char → Option (List Char × List Char)
  | [] => none
  | c :: rest =>
    if c = '='
    then some ([], rest)
    else (splitAtEq rest).map (fun pr => (c :: pr.1, pr.2))

/-- The characters strictly before the first `"` (the closing quote scan
of groupcheck.c:698-719); `none` when the line ends first. -/
def takeUntilQuote : List Char → Option (List Char)
  | [] => none
  | c :: rest =>
    if c = '"' then some []
    else (takeUntilQuote rest).map (fun t => c :: t)

/-- Group splitting inside the quotes: the `group_begins` / `','`
handling of groupcheck.c:698-719 records a group at every position
after the opening quote or a comma, so the quoted content splits on
`,` into pieces (an empty content is the single empty group). -/
def splitComma : List Char → List (List Char)
  | [] => [[]]
  | c :: rest =>
    if c = ','
    then [] :: splitComma rest
    else
      match splitComma rest with
      | p :: ps => (c :: p) :: ps
      | [] => [[c]]

/-- Translation of `parse_line` (groupcheck.c:662-723): action id before the first `=`,
then a `"` must follow, then comma-separated groups until the closing
`"`; fails when `=` or either quote is missing, or when an eleventh
group begins (`MAX_GROUPS = 10`, groupcheck.c:700-703). -/
def parse_line (line : String) : Option Rule :=
  match splitAtEq line.toList with
  | none => none
  | some (idChars, rest) =>
    match rest with
    | [] => none
    | c :: rest2 =>
      if c = '"' then
        match takeUntilQuote rest2 with
        | none => none
        | some content =>
          let pieces := splitComma content
          if 10 < pieces.length then none
          else some ⟨String.mk idChars, pieces.map String.mk⟩
      else none

/-- The line filter of `load_file` (groupcheck.c:751-763): empty reads,
comment lines starting with `#` and blank lines starting with a newline
are skipped before parsing. -/
def keptLine (l : String) : Bool :=
  match l.toList with
  | [] => false
  | c :: _ => !(c = '#' : Bool) && !(c = '\n' : Bool)

/-- The parse loop of `load_file` (groupcheck.c:775-782): parse the kept
lines in order; the first failing line aborts the whole load (the data
is freed and NULL returned). -/
def parseLines : List String → Option (List Rule)
  | [] => some []
  | l :: rest =>
    match parse_line l with
    | none => none
    | some r => (parseLines rest).map (fun rs => r :: rs)

/-- Translation of `load_file` (groupcheck.c:725-787) on the lines of the file as produced
by `fgets`: filter comments and blanks, then parse every remaining line;
any parse failure yields NULL (no partial store). -/
def load_file (lines : List String) : Option (List Rule) :=
  parseLines (lines.filter keptLine)

/-- The startup gate in `main` (groupcheck.c:818-822): when `load_file`
returns NULL the process jumps to `end` and exits without registering
the D-Bus object or entering the event loop. -/
def serverStarts (lines : List String) : Bool :=
  (load_file lines).isSome

/-! ### method_check_authorization (groupcheck.c:438-560) -/

/-- The reply body `(bba{ss})` of `CheckAuthorization`
(groupcheck.c:533-553): `(is_authorized, is_challenge, details)` with
`is_challenge` hard-coded `false` and the details array left empty. -/
structure Verdict where
  is_authorized : Bool
  is_challenge : Bool
  details : List (String × String)
  deriving DecidableEq, Repr

/-- Translation of `method_check_authorization` (groupcheck.c:438-560): parse the
subject (failure propagates as a protocol error, `none`), read the
action id, drain the `a{ss}` details array, the flags word and the
cancellation id, then decide with `check_allowed` — which receives only
the bus, the policy data, the subject and the action id — and reply
`(allowed, false, {})`. -/
def method_check_authorization (env : Env) (data : List Rule)
    (w : SubjectWire) (action : String)
    (_details : List (String × String)) (_flags : Nat)
    (_cancellationId : String) : Option Verdict :=
  match parse_subject w with
  | none => none
  | some subj => some ⟨check_allowed env data subj action, false, []⟩

/-! ### The intended stat-field reading, and concrete sample data -/

/-- Iterated skip, `n` repetitions of: find the next space and move past it.  This is
the reading the comment of `verify_start_time` describes
("skip over 19 more (20 spaces)", groupcheck.c:108-114); the C loop
instead re-finds the same space each time because `strchr` starts at a
position already holding a space. -/
def skipPastSpaces : List Char → Nat → Option (List Char)
  | p, 0 => some p
  | p, n + 1 =>
    match strchr p ' ' with
    | none => none
    | some [] => none
    | some (_ :: q) => skipPastSpaces q n

/-- The OS-recorded start time of the stat line, following the wording of
the spec (§4.3: the record the OS itself keeps of the start time of
that pid, read from the per-process status record at a fixed field
offset corresponding to process start time in jiffies): the 22nd
space-separated field, i.e.
20 fields past the `)` closing the comm field.  This is the value
`verify_start_time` is documented to compare against the claim. -/
def osRecordedStartTime (stat : List Char) : Option Nat :=
  match strchr stat ')' with
  | none => none
  | some p0 =>
    match skipPastSpaces p0 20 with
    | none => none
    | some p => some (cstrtoul p).1

/-- A well-formed first line of `/proc/1234/stat` whose 22nd field
(process start time in jiffies) is `5555`. -/
def sampleStatLine : List Char :=
  ("1234 (mycmd) S 1 1 1 0 -1 4194304 100 0 0 0 10 5 0 0 20 0 1 0"
    ++ " 5555 1000000 200").toList

/-- A concrete OS / bus oracle used by the concrete scenarios:
* pid 1234: uid = euid = 1000, primary gid 100 (`users`),
  supplementary gids {998} (`wheel`); its stat line is
  `sampleStatLine` (start time 5555);
* bus name ":1.7": uid = euid = 1000, primary gid 998 (`wheel`),
  supplementary gids {998};
* bus name ":1.8": uid = euid = 1000, primary gid 100,
  supplementary gids {998};
* bus name ":1.9": uid 500 but euid 0, supplementary gids {55};
* bus name ":1.10": uid = euid = 1000, primary gid 7,
  supplementary gids {55};
* group database: wheel ↦ 998, adm ↦ 4, users ↦ 100, g1 ↦ 11,
  g2 ↦ 55; every other name (the empty name included) has no entry. -/
def sampleEnv : Env where
  credsFromPid := fun pid =>
    if pid = 1234 then some ⟨1000, 1000, 100, [998]⟩ else none
  nameCreds := fun nm =>
    if nm = ":1.7" then some ⟨1000, 1000, 998, [998]⟩
    else if nm = ":1.8" then some ⟨1000, 1000, 100, [998]⟩
    else if nm = ":1.9" then some ⟨500, 0, 7, [55]⟩
    else if nm = ":1.10" then some ⟨1000, 1000, 7, [55]⟩
    else none
  statContent := fun pid =>
    if pid = 1234 then some sampleStatLine else none
  getgrnam := fun nm =>
    if nm = "wheel" then some 998
    else if nm = "adm" then some 4
    else if nm = "users" then some 100
    else if nm = "g1" then some 11
    else if nm = "g2" then some 55
    else none

/-- The policy store holding the single rule
`org.freedesktop.login1.reboot="adm,wheel"`. -/
def samplePolicy : List Rule :=
  [⟨"org.freedesktop.login1.reboot", ["adm", "wheel"]⟩]

/-- The wire subject of the C1 scenario: a unix-process subject with
pid 1234 and claimed start time 5555. -/
def sampleProcessWire : SubjectWire :=
  ⟨"unix-process", [("pid", .u32 1234), ("start-time", .u64 5555)]⟩

/-- A 256-byte string (256 ASCII characters), one byte past the largest
session id `parse_subject` accepts. -/
def longName : String := String.mk (List.replicate 256 'a')

/-! ### Helper lemmas -/

/-- Key lemma: `verify_start_time` can never succeed: `strtoul` always stores a
non-null pointer into `endp`, so the guard
`if (endp != NULL) return -EINVAL;` (groupcheck.c:117-118) fires on
every path that reaches it, and all earlier paths are failures too. -/
theorem verify_start_time_false (stat : Option (List Char)) (claimed : Nat) :
    verify_start_time stat claimed = false := by
  cases stat with
  | none => rfl
  | some buf =>
    unfold verify_start_time
    dsimp only
    split
    · rfl
    · split
      · rfl
      · rfl

/-- Characterization of the group-matching loops: a match is found
exactly when some configured name resolves to a gid that occurs among
the supplementary gids at a value different from the primary gid. -/
theorem matchGroups_iff (db : String → Option Nat) (groups : List String)
    (primaryGid : Nat) (gids : List Nat) :
    matchGroups db groups primaryGid gids = true ↔
      ∃ name ∈ groups, ∃ g, db name = some g ∧ g ∈ gids ∧ g ≠ primaryGid := by
  unfold matchGroups
  rw [List.any_eq_true]
  constructor
  · rintro ⟨name, hmem, hname⟩
    refine ⟨name, hmem, ?_⟩
    cases hdb : db name with
    | none => rw [hdb] at hname; cases hname
    | some g =>
      rw [hdb, List.any_eq_true] at hname
      obtain ⟨x, hx, hxp⟩ := hname
      simp only [Bool.and_eq_true, Bool.not_eq_true', decide_eq_true_eq,
        decide_eq_false_iff_not] at hxp
      exact ⟨g, rfl, hxp.2 ▸ hx, hxp.2 ▸ hxp.1⟩
  · rintro ⟨name, hmem, g, hdb, hg, hne⟩
    refine ⟨name, hmem, ?_⟩
    rw [hdb, List.any_eq_true]
    exact ⟨g, hg, by simp [hne]⟩

/-- The policy scan finds nothing when no rule carries the action id. -/
theorem findRule_eq_none (data : List Rule) (action : String)
    (h : ∀ r ∈ data, r.id ≠ action) : findRule data action = none := by
  induction data with
  | nil => rfl
  | cons r rest ih =>
    unfold findRule
    rw [if_neg (h r (List.mem_cons_self r rest))]
    exact ih fun x hx => h x (List.mem_cons_of_mem r hx)

/-- One unparsable line aborts the whole parse loop. -/
theorem parseLines_none (ls : List String) (l : String) (hmem : l ∈ ls)
    (hp : parse_line l = none) : parseLines ls = none := by
  induction ls with
  | nil => cases hmem
  | cons x rest ih =>
    unfold parseLines
    rcases List.mem_cons.mp hmem with h | h
    · rw [← h, hp]
    · cases hx : parse_line x with
      | none => rfl
      | some r => rw [ih h]; rfl

/-! ### Claim theorems -/

/-- Claim C1: in the scenario where the policy holds
`org.freedesktop.login1.reboot="adm,wheel"`, the subject is a
unix-process whose supplementary gids include the gid of wheel (998), whose
primary gid is the gid of users (100), whose real and effective uid agree,
and whose claimed start time (5555) equals the OS-recorded start time
of its stat line, `CheckAuthorization` nevertheless returns
`(false, false, {})`: `verify_start_time` can never report a match, so
every unix-process request is denied.  The claimed verdict
`(true, false, {})` is not produced. -/
theorem c1_reboot_scenario_denied :
    osRecordedStartTime sampleStatLine = some 5555 ∧
    sampleEnv.statContent 1234 = some sampleStatLine ∧
    sampleEnv.credsFromPid 1234 = some ⟨1000, 1000, 100, [998]⟩ ∧
    sampleEnv.getgrnam "wheel" = some 998 ∧
    sampleEnv.getgrnam "users" = some 100 ∧
    method_check_authorization sampleEnv samplePolicy sampleProcessWire
      "org.freedesktop.login1.reboot" [] 1 "" = some ⟨false, false, []⟩ := by
  refine ⟨?_, ?_, ?_, ?_, ?_, ?_⟩ <;> decide

/-- Claim C4: a `session-id` detail whose string value is 256 bytes or
more does NOT make the decode fail: the length guard at
groupcheck.c:360-361 executes `return r` where `r` is the non-negative
result of the successful string read, so `parse_subject` reports
success while the session id field is left at its zero-initialized
(empty) value — a partial `Subject` is produced. -/
theorem c4_long_session_id_accepted (s : String)
    (rest : List (String × Variant)) (h : 256 ≤ s.utf8ByteSize) :
    parse_subject ⟨"unix-session", ("session-id", .str s) :: rest⟩ =
      some (.unixSession "") := by
  simp [parse_subject, parseDetails, h]

set_option maxRecDepth 8000 in
/-- Witness for `c4_long_session_id_accepted` at a concrete 256-byte
session id. -/
theorem c4_long_session_id_accepted_witness :
    256 ≤ longName.utf8ByteSize ∧
    parse_subject ⟨"unix-session", [("session-id", .str longName)]⟩ =
      some (.unixSession "") :=
  ⟨by decide, c4_long_session_id_accepted longName [] (by decide)⟩

/-- Claim C5: an action id carried by no rule of the policy store is
denied for every subject: the scan of `check_allowed` leaves `groups`
NULL and the function returns false (groupcheck.c:144-156). -/
theorem c5_unknown_action_denied (env : Env) (data : List Rule)
    (subject : Subject) (action : String)
    (h : ∀ r ∈ data, r.id ≠ action) :
    check_allowed env data subject action = false := by
  unfold check_allowed
  rw [findRule_eq_none data action h]

/-- Witness for `c5_unknown_action_denied`: the sample policy has no
rule for `org.other.action`. -/
theorem c5_unknown_action_denied_witness :
    (∀ r ∈ samplePolicy, r.id ≠ "org.other.action") ∧
    check_allowed sampleEnv samplePolicy (.systemBusName ":1.8")
      "org.other.action" = false :=
  ⟨by decide, c5_unknown_action_denied sampleEnv samplePolicy
    (.systemBusName ":1.8") "org.other.action" (by decide)⟩

/-- Claim C6: whenever the credentials fetched for the subject have a
real uid different from the effective uid, `check_allowed` returns
false, whatever the policy rule and group memberships
(groupcheck.c:193-199, 224-225). -/
theorem c6_uid_mismatch_denied (env : Env) (data : List Rule)
    (subject : Subject) (action : String) (c : Creds)
    (hc : fetchedCreds env subject = some c) (h : c.uid ≠ c.euid) :
    check_allowed env data subject action = false := by
  unfold check_allowed
  cases hf : findRule data action with
  | none => rfl
  | some groups =>
    cases subject with
    | unixProcess pid st =>
      simp [verify_start_time_false]
      cases env.credsFromPid pid <;> rfl
    | unixSession sid => rfl
    | systemBusName nm =>
      simp only [fetchedCreds] at hc
      have h2 : c.euid ≠ c.uid := fun he => h he.symm
      simp [hc, h2]

/-- Witness for `c6_uid_mismatch_denied`: bus name ":1.9" resolves to
uid 500 but euid 0, and its supplementary gid 55 is group g2 — yet a
rule naming g2 does not authorize it. -/
theorem c6_uid_mismatch_denied_witness :
    (fetchedCreds sampleEnv (.systemBusName ":1.9") =
      some ⟨500, 0, 7, [55]⟩) ∧
    ((⟨500, 0, 7, [55]⟩ : Creds).uid ≠ (⟨500, 0, 7, [55]⟩ : Creds).euid) ∧
    check_allowed sampleEnv [⟨"org.test.act", ["g2"]⟩]
      (.systemBusName ":1.9") "org.test.act" = false :=
  ⟨by decide, by decide, c6_uid_mismatch_denied sampleEnv
    [⟨"org.test.act", ["g2"]⟩] (.systemBusName ":1.9") "org.test.act"
    ⟨500, 0, 7, [55]⟩ (by decide) (by decide)⟩

/-- Claim C9: the verdict computed by `method_check_authorization` does
not depend on the `details` mapping, the `flags` word or the
`cancellation_id`: `check_allowed` receives only the bus, the policy
data, the decoded subject and the action id (groupcheck.c:524). -/
theorem c9_verdict_ignores_details_flags_cancellation (env : Env)
    (data : List Rule) (w : SubjectWire) (action : String)
    (d1 d2 : List (String × String)) (f1 f2 : Nat) (c1 c2 : String) :
    method_check_authorization env data w action d1 f1 c1 =
      method_check_authorization env data w action d2 f2 c2 := rfl

/-- Claim C10: the policy line `id=""` parses successfully into a rule
with the single empty group name, and since the empty name has no group
database entry the action is denied for every subject. -/
theorem c10_empty_group_rule (env : Env) (subject : Subject)
    (h : env.getgrnam "" = none) :
    load_file ["id=\"\"\n"] = some [⟨"id", [""]⟩] ∧
    check_allowed env [⟨"id", [""]⟩] subject "id" = false := by
  refine ⟨by decide, ?_⟩
  have hm : ∀ p gids, matchGroups env.getgrnam [""] p gids = false := by
    intro p gids
    simp [matchGroups, h]
  have hf : findRule [⟨"id", [""]⟩] "id" = some [""] := by decide
  unfold check_allowed
  rw [hf]
  cases subject with
  | unixProcess pid st =>
    simp [verify_start_time_false]
    cases env.credsFromPid pid <;> rfl
  | unixSession sid => rfl
  | systemBusName nm =>
    simp [hm]
    cases env.nameCreds nm <;> rfl

/-- Claim C2 counterexample: the gid of the configured group appearing among
the supplementary gids does NOT suffice when it equals the primary gid.
Bus peer ":1.7" has primary gid 998 (wheel) and supplementary gids
{998}; the policy rule names wheel; yet the decision is `false`,
because the matching loop skips every supplementary gid equal to the
primary gid (groupcheck.c:255-261). -/
theorem c2_primary_in_supplementary_denied :
    sampleEnv.nameCreds ":1.7" = some ⟨1000, 1000, 998, [998]⟩ ∧
    sampleEnv.getgrnam "wheel" = some 998 ∧
    (998 : Nat) ∈ [998] ∧
    check_allowed sampleEnv samplePolicy (.systemBusName ":1.7")
      "org.freedesktop.login1.reboot" = false := by
  refine ⟨?_, ?_, ?_, ?_⟩ <;> decide

/-- Claim C2 (amended): for a bus-name subject with resolved
credentials and matching uid/euid, the decision is `true` exactly when
some configured group name resolves to a gid occurring among the
supplementary gids of the subject *at a value different from the
primary gid*; the primary gid itself is never matched, and a supplementary
entry numerically equal to the primary gid is skipped as well. -/
theorem c2_supplementary_match_excludes_primary (env : Env)
    (data : List Rule) (nm action : String) (groups : List String)
    (c : Creds) (hg : findRule data action = some groups)
    (hc : env.nameCreds nm = some c) (hu : c.euid = c.uid) :
    (check_allowed env data (.systemBusName nm) action = true ↔
      ∃ name ∈ groups, ∃ g, env.getgrnam name = some g ∧
        g ∈ c.supplementaryGids ∧ g ≠ c.gid) := by
  unfold check_allowed
  rw [hg]
  dsimp only
  rw [hc]
  dsimp only
  rw [if_neg (not_not_intro hu)]
  exact matchGroups_iff env.getgrnam groups c.gid c.supplementaryGids

/-- Witness for `c2_supplementary_match_excludes_primary`: bus peer
":1.8" (primary gid 100, supplementary gids {998}) under the sample
reboot policy. -/
theorem c2_supplementary_match_excludes_primary_witness :
    (findRule samplePolicy "org.freedesktop.login1.reboot" =
      some ["adm", "wheel"]) ∧
    (check_allowed sampleEnv samplePolicy (.systemBusName ":1.8")
        "org.freedesktop.login1.reboot" = true ↔
      ∃ name ∈ ["adm", "wheel"], ∃ g, sampleEnv.getgrnam name = some g ∧
        g ∈ [998] ∧ g ≠ 100) :=
  ⟨by decide, c2_supplementary_match_excludes_primary sampleEnv samplePolicy
    ":1.8" "org.freedesktop.login1.reboot" ["adm", "wheel"]
    ⟨1000, 1000, 100, [998]⟩ (by decide) (by decide) rfl⟩

/-- Claim C3 counterexample: with the same action id loaded twice, the
decision uses the EARLIER definition, not the later one.  The loaded
store keeps both lines in file order; the scan of `check_allowed`
returns the first match, so the groups used for "a" are ["g1"], and a
subject belonging only to g2 (the later definition) is denied. -/
theorem c3_duplicate_action_uses_first :
    load_file ["a=\"g1\"\n", "a=\"g2\"\n"] =
      some [⟨"a", ["g1"]⟩, ⟨"a", ["g2"]⟩] ∧
    findRule [⟨"a", ["g1"]⟩, ⟨"a", ["g2"]⟩] "a" = some ["g1"] ∧
    (["g1"] : List String) ≠ ["g2"] ∧
    sampleEnv.getgrnam "g2" = some 55 ∧
    sampleEnv.nameCreds ":1.10" = some ⟨1000, 1000, 7, [55]⟩ ∧
    check_allowed sampleEnv [⟨"a", ["g1"]⟩, ⟨"a", ["g2"]⟩]
      (.systemBusName ":1.10") "a" = false := by
  refine ⟨?_, ?_, ?_, ?_, ?_, ?_⟩ <;> decide

/-- Claim C3 (amended): when the same action id is defined more than
once in the loaded store, the rule used for a decision is the EARLIEST
(first-in-load-order) definition and its group list: the scan of
`check_allowed` (groupcheck.c:146-153) breaks at the first rule whose
id matches. -/
theorem c3_first_definition_wins (pre mid post : List Rule) (a : String)
    (gs1 gs2 : List String) (h : ∀ r ∈ pre, r.id ≠ a) :
    findRule (pre ++ ⟨a, gs1⟩ :: mid ++ ⟨a, gs2⟩ :: post) a = some gs1 := by
  induction pre with
  | nil => simp [findRule]
  | cons r rest ih =>
    have hr : r.id ≠ a := h r (List.mem_cons_self r rest)
    simp only [List.cons_append, findRule, if_neg hr]
    exact ih fun x hx => h x (List.mem_cons_of_mem r hx)

/-- Witness for `c3_first_definition_wins` with one unrelated rule
before two definitions of "a". -/
theorem c3_first_definition_wins_witness :
    (∀ r ∈ [(⟨"b", ["x"]⟩ : Rule)], r.id ≠ "a") ∧
    findRule ([⟨"b", ["x"]⟩] ++ ⟨"a", ["g1"]⟩ :: [] ++ ⟨"a", ["g2"]⟩ :: [])
      "a" = some ["g1"] :=
  ⟨by decide, c3_first_definition_wins [⟨"b", ["x"]⟩] [] [] "a" ["g1"]
    ["g2"] (by decide)⟩

/-- Claim C7: one grammatically invalid, non-comment, non-blank line
makes the whole load fail: `load_file` frees everything and returns
NULL (groupcheck.c:775-782), so no rule — earlier well-formed lines
included — survives, and `main` exits without serving
(groupcheck.c:818-822). -/
theorem c7_malformed_line_fails_load (lines : List String) (l : String)
    (hmem : l ∈ lines) (hkept : keptLine l = true)
    (hbad : parse_line l = none) :
    load_file lines = none ∧ serverStarts lines = false := by
  have hl : load_file lines = none :=
    parseLines_none (lines.filter keptLine) l
      (List.mem_filter.mpr ⟨hmem, hkept⟩) hbad
  exact ⟨hl, by simp [serverStarts, hl]⟩

/-- Witness for `c7_malformed_line_fails_load`: a file with one
well-formed line followed by a line with no `=`. -/
theorem c7_malformed_line_fails_load_witness :
    ("bad-line-no-equals\n" ∈
      ["org.freedesktop.login1.reboot=\"adm\"\n", "bad-line-no-equals\n"]) ∧
    keptLine "bad-line-no-equals\n" = true ∧
    parse_line "bad-line-no-equals\n" = none ∧
    (load_file ["org.freedesktop.login1.reboot=\"adm\"\n",
        "bad-line-no-equals\n"] = none ∧
      serverStarts ["org.freedesktop.login1.reboot=\"adm\"\n",
        "bad-line-no-equals\n"] = false) :=
  ⟨by decide, by decide, by decide,
    c7_malformed_line_fails_load
      ["org.freedesktop.login1.reboot=\"adm\"\n", "bad-line-no-equals\n"]
      "bad-line-no-equals\n" (by decide) (by decide) (by decide)⟩

/-- Claim C8 counterexample: a structurally well-formed payload whose
second detail entry carries the unrecognized key "foo" fails to decode
(the unread variant makes `sd_bus_message_exit_container` on the dict
entry return -EBUSY), while the same payload without that entry decodes
fine.  Unrecognized keys are not silently ignored. -/
theorem c8_unrecognized_key_fails_decode :
    parse_subject ⟨"unix-process",
      [("pid", .u32 1234), ("foo", .str "bar")]⟩ = none ∧
    parse_subject ⟨"unix-process", [("pid", .u32 1234)]⟩ =
      some (.unixProcess 1234 0) := by
  refine ⟨?_, ?_⟩ <;> decide

/-- Claim C8 (amended): a detail entry whose key is not recognized for
the active subject kind makes the decode fail rather than being
ignored: the code never reads the variant of the entry, so closing the dict
entry container fails.  Stated for an unrecognized key in the first
detail entry of each supported kind. -/
theorem c8_unrecognized_key_rejected (key : String) (v : Variant)
    (rest : List (String × Variant)) :
    (key ≠ "pid" ∧ key ≠ "start-time" →
      parse_subject ⟨"unix-process", (key, v) :: rest⟩ = none) ∧
    (key ≠ "session-id" →
      parse_subject ⟨"unix-session", (key, v) :: rest⟩ = none) ∧
    (key ≠ "name" →
      parse_subject ⟨"system-bus-name", (key, v) :: rest⟩ = none) := by
  refine ⟨fun h => ?_, fun h => ?_, fun h => ?_⟩
  · simp [parse_subject, parseDetails, h.1, h.2]
  · simp [parse_subject, parseDetails, h]
  · simp [parse_subject, parseDetails, h]

/-- Witness for `c8_unrecognized_key_rejected` at the concrete key
"foo" on a unix-process subject. -/
theorem c8_unrecognized_key_rejected_witness :
    (("foo" : String) ≠ "pid" ∧ ("foo" : String) ≠ "start-time") ∧
    parse_subject ⟨"unix-process", [("foo", Variant.str "x")]⟩ = none :=
  ⟨⟨by decide, by decide⟩,
    (c8_unrecognized_key_rejected "foo" (.str "x") []).1
      ⟨by decide, by decide⟩⟩

/-- Witness for `c10_empty_group_rule` at the sample oracle and a
concrete bus-name subject. -/
theorem c10_empty_group_rule_witness :
    sampleEnv.getgrnam "" = none ∧
    (load_file ["id=\"\"\n"] = some [⟨"id", [""]⟩] ∧
      check_allowed sampleEnv [⟨"id", [""]⟩] (.systemBusName ":1.8") "id"
        = false) :=
  ⟨by decide, c10_empty_group_rule sampleEnv (.systemBusName ":1.8")
    (by decide)⟩

end Groupcheck
